import Mathlib

/-!
Verification of the airss feed-deduplication-and-publishing pipeline.

The definitions below are a shallow embedding of the Python sources:
* `rsshubai.py` — the monolithic script (CacheManager, ContentParser,
  NotionManager text helpers, RSSManager.try_rss_source /
  fetch_user_content / display_content);
* `src/managers/rss_manager.py` — the modular RSSManager
  (try_rss_source, fetch_user_content, process_user_content);
* `src/notion/notion_manager.py` — the modular NotionManager
  (push_entry_to_notion field preparation).

External black boxes (hashlib.md5, feedparser, the Notion client) are
modelled as explicit function parameters: the hash as `md5 : String → String`,
feed parsing as `parse : String → Option Feed` (`none` = raised exception),
and the per-entry publish call as `push : Entry → Bool` (`false` = the store
rejected the page, as `push_entry_to_notion` returns `False` on failure).
Python dicts are embedded as association lists with unique keys:
assignment replaces the value of an existing key or appends a new pair,
and `in` is key membership, mirroring insertion-ordered dict semantics.
-/

namespace Airss

/-- A feedparser entry, an untyped bag of optional string fields
(`entry.get(k)` returns `None` when the field is absent). -/
structure Entry where
  id : Option String
  link : Option String
  title : Option String
  author : Option String
  published : Option String
  summary : Option String
deriving DecidableEq, Repr

/-- `entry.get(k, '')`: the field's value, or `""` when absent. -/
def Entry.getS (o : Option String) : String := o.getD ""

/-- A value of `CacheManager.cache_data[entry_id]` as written by
`add_entry_to_cache` (rsshubai.py lines 81-90).  `time.time()` is modelled
as an integer number of seconds. -/
structure CacheRecord where
  title : String
  link : String
  author : String
  published : String
  cached_time : Int
deriving DecidableEq, Repr

/-- `CacheManager.cache_data`: a JSON-backed Python dict from fingerprint
string to record, embedded as an insertion-ordered association list with
unique keys. -/
abbrev CacheData := List (String × CacheRecord)

/-- `entry_id in cache_data`: dict key membership. -/
def containsKey (c : CacheData) (k : String) : Bool :=
  c.any (fun p => p.1 == k)

/-- `cache_data[entry_id] = record`: dict assignment — replaces the value
stored under an existing key, otherwise appends the new pair. -/
def insertKV (c : CacheData) (k : String) (v : CacheRecord) : CacheData :=
  if containsKey c k then
    c.map (fun p => if p.1 == k then (k, v) else p)
  else
    c ++ [(k, v)]

/-- `CacheManager._generate_entry_id` (rsshubai.py lines 60-74): prefer the
entry's `id` when truthy (present and non-empty), else its `link` when
truthy, else hash the f-string `f"{title}_{published}"`.  `md5` stands for
`hashlib.md5(unique_str.encode('utf-8')).hexdigest()`. -/
def generate_entry_id (md5 : String → String) (e : Entry) : String :=
  if Entry.getS e.id ≠ "" then
    md5 (Entry.getS e.id)
  else if Entry.getS e.link ≠ "" then
    md5 (Entry.getS e.link)
  else
    md5 (Entry.getS e.title ++ "_" ++ Entry.getS e.published)

/-- `CacheManager.is_entry_cached` (rsshubai.py lines 76-79). -/
def is_entry_cached (md5 : String → String) (c : CacheData) (e : Entry) : Bool :=
  containsKey c (generate_entry_id md5 e)

/-- `CacheManager.add_entry_to_cache` (rsshubai.py lines 81-90); `now` is
the value of `time.time()` at the insertion. -/
def add_entry_to_cache (md5 : String → String) (now : Int) (c : CacheData)
    (e : Entry) : CacheData :=
  insertKV c (generate_entry_id md5 e)
    { title := Entry.getS e.title
      link := Entry.getS e.link
      author := Entry.getS e.author
      published := Entry.getS e.published
      cached_time := now }

/-- The retention window `30 * 24 * 3600` seconds (rsshubai.py line 99). -/
def RETENTION_SECONDS : Int := 30 * 24 * 3600

/-- Outcome of `CacheManager.get_cache_stats`: the cleaned cache, the
returned pair `(kept, evicted)`, and whether `_save_cache` was called. -/
structure StatsResult where
  cache : CacheData
  kept : Nat
  evicted : Nat
  saved : Bool
deriving DecidableEq, Repr

/-- `CacheManager.get_cache_stats` (rsshubai.py lines 92-108): collect the
ids whose age `now - cached_time` strictly exceeds 30 days, delete them
(dict keys are unique, so the per-key delete loop is a filter), save only
when at least one id was deleted, and return
`(total_before - deleted, deleted)`. -/
def get_cache_stats (now : Int) (c : CacheData) : StatsResult :=
  let total := c.length
  let old := c.filter (fun p => now - p.2.cached_time > RETENTION_SECONDS)
  { cache := c.filter (fun p => ¬ (now - p.2.cached_time > RETENTION_SECONDS))
    kept := total - old.length
    evicted := old.length
    saved := old.length != 0 }

/-! ### Feed acquisition (`try_rss_source`, `fetch_user_content`) -/

/-- A parsed feed as `try_rss_source` inspects it: `status` is `some n`
when `hasattr(feed, 'status')` with `feed.status == n`, and `entries` is
`some l` when `hasattr(feed, 'entries')`. -/
structure Feed where
  status : Option Int
  entries : Option (List Entry)
deriving DecidableEq, Repr

/-- `len(feed.entries) if hasattr(feed, 'entries') else 0`. -/
def Feed.entryCount (f : Feed) : Nat := (f.entries.getD []).length

/-- `RSSManager.try_rss_source` (rsshubai.py lines 810-847 and
`src/managers/rss_manager.py` lines 35-72, identical logic).  The parse
result is `none` when `feedparser.parse` raised (the `except` branch).
Success requires `status == 200` together with a non-empty entry list, or
(the `elif`) a non-empty entry list alone; otherwise `(None, False)`. -/
def try_rss_source (pr : Option Feed) : Option Feed × Bool :=
  match pr with
  | none => (none, false)
  | some feed =>
    if feed.status = some 200 ∧ feed.entryCount > 0 then (some feed, true)
    else if feed.entryCount > 0 then (some feed, true)
    else (none, false)

/-- Candidate `url` succeeds under the parsing oracle `parse`. -/
def sourceOk (parse : String → Option Feed) (url : String) : Bool :=
  (try_rss_source (parse url)).2

/-- The C4/§4.3 classification rule exactly as the spec states it: a
candidate is successful when the feed reports zero or more entries and
either an explicit success status or a non-empty entry list.  This is the
spec-side definition, to be compared against `try_rss_source`. -/
def specCandidateSuccessful (f : Feed) : Bool :=
  decide (f.status = some 200) || decide (f.entryCount > 0)

/-- `RSSManager.fetch_user_content` from `src/managers/rss_manager.py`
lines 74-104: try the candidate urls in order; on `success and feed`
return `(feed, url)` at once; on exhaustion (or an empty candidate list)
return `(None, None)`.  The second component of the result records the
urls actually attempted, in order. -/
def fetch_user_content (parse : String → Option Feed) :
    List String → (Option Feed × Option String) × List String
  | [] => ((none, none), [])
  | url :: rest =>
    let fs := try_rss_source (parse url)
    if fs.2 && fs.1.isSome then ((fs.1, some url), [url])
    else
      let r := fetch_user_content parse rest
      (r.1, url :: r.2)

/-- `RSSManager.fetch_user_content` from rsshubai.py lines 849-875: same
iteration, but on success it returns `(feed, user.platform)` — the user's
platform tag, not the url that succeeded. -/
def fetch_user_content_mono (parse : String → Option Feed) (platform : String) :
    List String → (Option Feed × Option String) × List String
  | [] => ((none, none), [])
  | url :: rest =>
    let fs := try_rss_source (parse url)
    if fs.2 then ((fs.1, some platform), [url])
    else
      let r := fetch_user_content_mono parse platform rest
      (r.1, url :: r.2)

/-! ### The filter-and-publish stage -/

/-- Result of one run of the publishing loop over a feed. -/
structure RunResult where
  cache : CacheData
  attempted : List Entry
  notion_success_count : Nat
  saved : Bool
deriving DecidableEq, Repr

/-- The per-entry loop shared by `process_user_content` and
`display_content`: for each entry, call `push_entry_to_notion` (the oracle
`push`; a `False` return increments nothing and raises nothing) and then
unconditionally `add_entry_to_cache`. -/
def pushLoop (md5 : String → String) (push : Entry → Bool) (now : Int) :
    CacheData → Nat → List Entry → CacheData × Nat
  | c, n, [] => (c, n)
  | c, n, e :: rest =>
    pushLoop md5 push now (add_entry_to_cache md5 now c e)
      (n + if push e then 1 else 0) rest

/-- `RSSManager.process_user_content` from `src/managers/rss_manager.py`
lines 106-163: return early on an empty feed; filter the entries that are
not cached; return early when none are new; otherwise push and cache every
new entry in feed order and save the cache once at the end. -/
def process_user_content (md5 : String → String) (push : Entry → Bool)
    (now : Int) (entries : List Entry) (cache : CacheData) : RunResult :=
  if entries.length = 0 then
    { cache := cache, attempted := [], notion_success_count := 0, saved := false }
  else
    let new_entries := entries.filter (fun e => ! is_entry_cached md5 cache e)
    if new_entries.isEmpty then
      { cache := cache, attempted := [], notion_success_count := 0, saved := false }
    else
      let r := pushLoop md5 push now cache 0 new_entries
      { cache := r.1, attempted := new_entries,
        notion_success_count := r.2, saved := true }

/-- `RSSManager.display_content` from rsshubai.py lines 877-938: filter
the uncached entries, return early when none are new, otherwise process
only `new_entries[:10]` — push and cache each of the first ten — and save
the cache once at the end. -/
def display_content (md5 : String → String) (push : Entry → Bool)
    (now : Int) (entries : List Entry) (cache : CacheData) : RunResult :=
  let new_entries := entries.filter (fun e => ! is_entry_cached md5 cache e)
  if new_entries.isEmpty then
    { cache := cache, attempted := [], notion_success_count := 0, saved := false }
  else
    let processed := new_entries.take 10
    let r := pushLoop md5 push now cache 0 processed
    { cache := r.1, attempted := processed,
      notion_success_count := r.2, saved := true }

/-! ### Text transformation (`ContentParser`, `NotionManager` helpers) -/

/-- Python string slicing `s[:n]`: the first `n` characters (code points). -/
def pyTake (s : String) (n : Nat) : String :=
  (s.data.take n).asString

/-- `ContentParser.safe_str` (rsshubai.py lines 176-188) on a string-or-None
value: `None` becomes the placeholder, and when `truncate` is set a string
longer than `max_length` becomes its first `max_length` characters with the
`"......"` marker appended.  (The `except` branch cannot fire for these
inputs.) -/
def safe_str (value : Option String) (max_length : Nat := 20000)
    (truncate : Bool := true) : String :=
  match value with
  | none => "无内容"
  | some s =>
    if truncate && s.length > max_length then
      pyTake s max_length ++ "......"
    else s

/-- The chunking loop of `_split_text_to_blocks`:
`for i in range(0, len(text), max_length): text[i:i+max_length]`, i.e.
successive `take`/`drop` slices.  Python raises on a zero step, which the
script never uses; a zero `max_length` yields `[]` here. -/
def chunkChars (max_length : Nat) (cs : List Char) : List (List Char) :=
  if cs.isEmpty ∨ max_length = 0 then []
  else cs.take max_length :: chunkChars max_length (cs.drop max_length)
termination_by cs.length
decreasing_by
  rename_i h
  rw [not_or] at h
  simp only [List.length_drop]
  have hcs : cs ≠ [] := by
    intro hnil
    exact h.1 (by simp [hnil])
  exact Nat.sub_lt (List.length_pos.mpr hcs) (Nat.pos_of_ne_zero h.2)

/-- `NotionManager._split_text_to_blocks` (rsshubai.py lines 563-578):
`[]` for a falsy (empty) text, the text itself as a single chunk when its
length is within `max_length`, and otherwise fixed-width slices of
`max_length` characters. -/
def split_text_to_blocks (text : String) (max_length : Nat := 1900) :
    List String :=
  if text.length = 0 then []
  else if text.length ≤ max_length then [text]
  else (chunkChars max_length text.data).map List.asString

/-- One step of `re.sub(r'<[^>]+>', '', text)`: at a `'<'`, the pattern
matches exactly when at least one non-`'>'` character is followed by a
`'>'`; a match is removed and scanning resumes after it, otherwise the
`'<'` is kept and scanning resumes at the next character. -/
def stripTags : List Char → List Char
  | [] => []
  | c :: rest =>
    if c = '<' then
      let body := rest.takeWhile (fun x => x ≠ '>')
      let rest' := rest.dropWhile (fun x => x ≠ '>')
      match hbody : body, hrest : rest' with
      | _ :: _, _ :: tail => stripTags tail
      | _, _ => c :: stripTags rest
    else c :: stripTags rest
termination_by cs => cs.length
decreasing_by
  · have h1 : (rest.dropWhile (fun x => decide (x ≠ '>'))).length ≤ rest.length :=
      (List.dropWhile_suffix _).sublist.length_le
    rw [show rest' = List.dropWhile (fun x => decide (x ≠ '>')) rest from rfl]
      at hrest
    rw [hrest] at h1
    simp only [List.length_cons] at h1 ⊢
    omega
  · simp
  · simp

/-- `' '.join(text.split())`: split on whitespace runs, drop the empty
pieces, and rejoin the words with single spaces. -/
def normalizeWhitespace (cs : List Char) : List Char :=
  List.intercalate [' ']
    (((cs.splitOnP (fun c => c.isWhitespace)).filter (fun w => ¬ w.isEmpty)))

/-- `NotionManager._clean_text` (rsshubai.py lines 551-561): empty or the
`"无内容"` placeholder becomes `""`; otherwise HTML tags are removed and
whitespace is collapsed. -/
def clean_text (text : String) : String :=
  if text = "" ∨ text = "无内容" then ""
  else (normalizeWhitespace (stripTags text.data)).asString

/-- The `标题` property content of `push_entry_to_notion`
(rsshubai.py line 607): `entry.get('title', '无标题')[:100]`. -/
def notion_title (e : Entry) : String :=
  pyTake (e.title.getD "无标题") 100

/-- The `作者` property content (rsshubai.py line 609):
`entry.get('author', user_name)[:100]`. -/
def notion_author (e : Entry) (user_name : String) : String :=
  pyTake (e.author.getD user_name) 100

/-- The `摘要` property content in the monolithic script
(rsshubai.py lines 611 and 668): `summary[:2000]` of the cleaned summary. -/
def notion_summary_mono (e : Entry) : String :=
  pyTake (clean_text (e.summary.getD "无摘要")) 2000

/-- The `摘要` property content in the modular manager
(`src/notion/notion_manager.py` lines 255 and 315): `summary[:1900]`. -/
def notion_summary_mod (e : Entry) : String :=
  pyTake (clean_text (e.summary.getD "无摘要")) 1900

/-- The C9 sentence specialized to the Notion title field, as the spec
states it: a title value longer than its 100-character maximum is stored
truncated to the maximum with a visible (non-empty) ellipsis marker
appended — so the stored field is strictly longer than 100 characters.
This is the spec-side property, to be compared against `notion_title`. -/
def specTitleTruncatedWithMarker : Prop :=
  ∀ e : Entry, 100 < (e.title.getD "无标题").length →
    100 < (notion_title e).length

/-- A feed of `n` distinct entries, entry `i` carrying the native id
`toString i` and no other field — used as concrete test feeds. -/
def numberedEntries (n : Nat) : List Entry :=
  (List.range n).map (fun i => ⟨some (toString i), none, none, none, none, none⟩)

/-! ### Helper lemmas about the cache -/

theorem containsKey_append (c d : CacheData) (k : String) :
    containsKey (c ++ d) k = (containsKey c k || containsKey d k) := by
  simp [containsKey]

theorem containsKey_insertKV (c : CacheData) (k k' : String) (v : CacheRecord) :
    containsKey (insertKV c k v) k' = (k' == k || containsKey c k') := by
  unfold insertKV
  by_cases h : containsKey c k
  · simp only [h, if_true]
    have hmap : ∀ c' : CacheData,
        (c'.map (fun p => if p.1 == k then (k, v) else p)).any (fun p => p.1 == k')
          = c'.any (fun p => p.1 == k') := by
      intro c'
      induction c' with
      | nil => rfl
      | cons p rest ih =>
        simp only [List.map_cons, List.any_cons, ih]
        by_cases hp : p.1 = k
        · simp [hp]
        · simp [hp]
    show (List.any _ _) = _
    rw [hmap]
    by_cases hk : k' = k
    · subst hk
      simp only [beq_self_eq_true, Bool.true_or]
      exact h
    · simp [containsKey, hk]
  · simp only [h, if_false, containsKey_append]
    by_cases hk : k' = k
    · subst hk
      simp [containsKey]
    · have h1 : (k == k') = false := beq_eq_false_iff_ne.mpr (Ne.symm hk)
      have h2 : (k' == k) = false := beq_eq_false_iff_ne.mpr hk
      simp [containsKey, h1, h2]

theorem containsKey_add_entry (md5 : String → String) (now : Int)
    (c : CacheData) (e : Entry) (k : String) :
    containsKey (add_entry_to_cache md5 now c e) k
      = (k == generate_entry_id md5 e || containsKey c k) := by
  unfold add_entry_to_cache
  rw [containsKey_insertKV]

/-- The keys present after the publish loop are exactly the initial keys
together with the fingerprints of the processed entries — independently of
the publish outcomes. -/
theorem containsKey_pushLoop (md5 : String → String) (push : Entry → Bool)
    (now : Int) (es : List Entry) (c : CacheData) (n : Nat) (k : String) :
    containsKey (pushLoop md5 push now c n es).1 k
      = (containsKey c k || es.any (fun e => generate_entry_id md5 e == k)) := by
  induction es generalizing c n with
  | nil => simp [pushLoop]
  | cons e rest ih =>
    rw [pushLoop, ih, containsKey_add_entry]
    by_cases hk : k = generate_entry_id md5 e
    · simp [hk]
    · have h1 : (k == generate_entry_id md5 e) = false :=
        beq_eq_false_iff_ne.mpr hk
      have h2 : (generate_entry_id md5 e == k) = false :=
        beq_eq_false_iff_ne.mpr (Ne.symm hk)
      simp [h1, h2, Bool.or_assoc]

/-- The success counter of the publish loop counts exactly the entries the
push oracle accepted. -/
theorem snd_pushLoop (md5 : String → String) (push : Entry → Bool)
    (now : Int) (es : List Entry) (c : CacheData) (n : Nat) :
    (pushLoop md5 push now c n es).2 = n + es.countP (fun e => push e) := by
  induction es generalizing c n with
  | nil => simp [pushLoop]
  | cons e rest ih =>
    rw [pushLoop, ih, List.countP_cons]
    by_cases hp : push e
    · simp [hp]
      omega
    · simp [hp]

/-! ### Helper lemmas about the two run functions -/

/-- After `process_user_content`, every entry of the processed feed is
cached: entries that were already cached stay cached (inserting other keys
never removes one), and every new entry's fingerprint is inserted by the
loop. -/
theorem all_cached_after_process (md5 : String → String) (push : Entry → Bool)
    (now : Int) (entries : List Entry) (cache : CacheData) :
    ∀ e ∈ entries,
      is_entry_cached md5
        (process_user_content md5 push now entries cache).cache e = true := by
  intro e he
  unfold process_user_content
  by_cases h0 : entries.length = 0
  · exact absurd he (by simp [List.length_eq_zero.mp h0])
  · rw [if_neg h0]
    by_cases h1 : (entries.filter (fun e => ! is_entry_cached md5 cache e)).isEmpty
    · simp only [h1, if_true]
      have hnil : entries.filter (fun e => ! is_entry_cached md5 cache e) = [] :=
        List.isEmpty_iff.mp h1
      have := List.filter_eq_nil_iff.mp hnil e he
      simpa using this
    · simp only [h1, if_false]
      show containsKey (pushLoop md5 push now cache 0 _).1 _ = true
      rw [containsKey_pushLoop]
      by_cases hc : is_entry_cached md5 cache e
      · simp only [is_entry_cached] at hc
        rw [hc]
        rfl
      · have hmem : e ∈ entries.filter (fun e => ! is_entry_cached md5 cache e) := by
          rw [List.mem_filter]
          exact ⟨he, by simp [hc]⟩
        have hany : (entries.filter (fun e => ! is_entry_cached md5 cache e)).any
            (fun x => generate_entry_id md5 x == generate_entry_id md5 e) = true :=
          List.any_eq_true.mpr ⟨e, hmem, beq_self_eq_true _⟩
        rw [hany]
        simp

/-- After `display_content`, every entry of the feed is cached, provided
at most ten of the feed's entries were uncached (so that the `[:10]` cap
did not cut the new-entry list). -/
theorem all_cached_after_display (md5 : String → String) (push : Entry → Bool)
    (now : Int) (entries : List Entry) (cache : CacheData)
    (hle : (entries.filter (fun e => ! is_entry_cached md5 cache e)).length ≤ 10) :
    ∀ e ∈ entries,
      is_entry_cached md5
        (display_content md5 push now entries cache).cache e = true := by
  intro e he
  unfold display_content
  by_cases h1 : (entries.filter (fun e => ! is_entry_cached md5 cache e)).isEmpty
  · simp only [h1, if_true]
    have hnil : entries.filter (fun e => ! is_entry_cached md5 cache e) = [] :=
      List.isEmpty_iff.mp h1
    have := List.filter_eq_nil_iff.mp hnil e he
    simpa using this
  · simp only [h1, if_false]
    rw [List.take_of_length_le hle]
    show containsKey (pushLoop md5 push now cache 0 _).1 _ = true
    rw [containsKey_pushLoop]
    by_cases hc : is_entry_cached md5 cache e
    · simp only [is_entry_cached] at hc
      rw [hc]
      rfl
    · have hmem : e ∈ entries.filter (fun e => ! is_entry_cached md5 cache e) := by
        rw [List.mem_filter]
        exact ⟨he, by simp [hc]⟩
      have hany : (entries.filter (fun e => ! is_entry_cached md5 cache e)).any
          (fun x => generate_entry_id md5 x == generate_entry_id md5 e) = true :=
        List.any_eq_true.mpr ⟨e, hmem, beq_self_eq_true _⟩
      rw [hany]
      simp

/-- A run of `process_user_content` over a feed whose entries are all
cached already returns immediately: nothing attempted, nothing published,
cache untouched, no save. -/
theorem process_run_no_new (md5 : String → String) (push : Entry → Bool)
    (now : Int) (entries : List Entry) (c : CacheData)
    (h : ∀ e ∈ entries, is_entry_cached md5 c e = true) :
    process_user_content md5 push now entries c
      = { cache := c, attempted := [], notion_success_count := 0,
          saved := false } := by
  unfold process_user_content
  by_cases h0 : entries.length = 0
  · rw [if_pos h0]
  · rw [if_neg h0]
    have hnil : entries.filter (fun e => ! is_entry_cached md5 c e) = [] :=
      List.filter_eq_nil_iff.mpr (fun e he => by simp [h e he])
    simp [hnil]

/-- Same early return for `display_content` over an all-cached feed. -/
theorem display_run_no_new (md5 : String → String) (push : Entry → Bool)
    (now : Int) (entries : List Entry) (c : CacheData)
    (h : ∀ e ∈ entries, is_entry_cached md5 c e = true) :
    display_content md5 push now entries c
      = { cache := c, attempted := [], notion_success_count := 0,
          saved := false } := by
  unfold display_content
  have hnil : entries.filter (fun e => ! is_entry_cached md5 c e) = [] :=
    List.filter_eq_nil_iff.mpr (fun e he => by simp [h e he])
  simp [hnil]

/-! ### Helper lemmas about feed acquisition -/

theorem try_rss_source_isSome (pr : Option Feed) :
    (try_rss_source pr).2 = true → (try_rss_source pr).1.isSome := by
  unfold try_rss_source
  rcases pr with _ | f
  · simp
  · dsimp only
    split
    · simp
    · split
      · simp
      · simp

theorem fetch_cons_ok (parse : String → Option Feed) (u : String)
    (rest : List String) (h : sourceOk parse u = true) :
    fetch_user_content parse (u :: rest)
      = (((try_rss_source (parse u)).1, some u), [u]) := by
  have hs := try_rss_source_isSome (parse u) h
  rw [fetch_user_content]
  simp only [sourceOk] at h
  rw [h, hs]
  rfl

theorem fetch_cons_fail (parse : String → Option Feed) (u : String)
    (rest : List String) (h : sourceOk parse u = false) :
    fetch_user_content parse (u :: rest)
      = ((fetch_user_content parse rest).1,
          u :: (fetch_user_content parse rest).2) := by
  rw [fetch_user_content]
  simp only [sourceOk] at h
  rw [h]
  rfl

theorem fetch_mono_cons_ok (parse : String → Option Feed) (platform u : String)
    (rest : List String) (h : sourceOk parse u = true) :
    fetch_user_content_mono parse platform (u :: rest)
      = (((try_rss_source (parse u)).1, some platform), [u]) := by
  rw [fetch_user_content_mono]
  simp only [sourceOk] at h
  rw [h]
  rfl

theorem fetch_mono_cons_fail (parse : String → Option Feed) (platform u : String)
    (rest : List String) (h : sourceOk parse u = false) :
    fetch_user_content_mono parse platform (u :: rest)
      = ((fetch_user_content_mono parse platform rest).1,
          u :: (fetch_user_content_mono parse platform rest).2) := by
  rw [fetch_user_content_mono]
  simp only [sourceOk] at h
  rw [h]
  rfl

theorem fetch_skips_failures (parse : String → Option Feed)
    (pre tail : List String) (hpre : ∀ v ∈ pre, sourceOk parse v = false) :
    fetch_user_content parse (pre ++ tail)
      = ((fetch_user_content parse tail).1,
          pre ++ (fetch_user_content parse tail).2) := by
  induction pre with
  | nil => simp
  | cons u rest ih =>
    have hu : sourceOk parse u = false := hpre u (List.mem_cons_self u rest)
    have hrest : ∀ v ∈ rest, sourceOk parse v = false :=
      fun v hv => hpre v (List.mem_cons_of_mem u hv)
    rw [List.cons_append, fetch_cons_fail parse u (rest ++ tail) hu, ih hrest]
    simp

theorem fetch_mono_skips_failures (parse : String → Option Feed)
    (platform : String) (pre tail : List String)
    (hpre : ∀ v ∈ pre, sourceOk parse v = false) :
    fetch_user_content_mono parse platform (pre ++ tail)
      = ((fetch_user_content_mono parse platform tail).1,
          pre ++ (fetch_user_content_mono parse platform tail).2) := by
  induction pre with
  | nil => simp
  | cons u rest ih =>
    have hu : sourceOk parse u = false := hpre u (List.mem_cons_self u rest)
    have hrest : ∀ v ∈ rest, sourceOk parse v = false :=
      fun v hv => hpre v (List.mem_cons_of_mem u hv)
    rw [List.cons_append, fetch_mono_cons_fail parse platform u (rest ++ tail) hu,
      ih hrest]
    simp

theorem fetch_all_fail (parse : String → Option Feed) (urls : List String)
    (h : ∀ v ∈ urls, sourceOk parse v = false) :
    fetch_user_content parse urls = ((none, none), urls) := by
  have := fetch_skips_failures parse urls [] h
  simpa [fetch_user_content] using this

theorem fetch_mono_all_fail (parse : String → Option Feed) (platform : String)
    (urls : List String) (h : ∀ v ∈ urls, sourceOk parse v = false) :
    fetch_user_content_mono parse platform urls = ((none, none), urls) := by
  have := fetch_mono_skips_failures parse platform urls [] h
  simpa [fetch_user_content_mono] using this

/-! ### Helper lemmas about chunking -/

theorem join_chunkChars (m : Nat) (cs : List Char) (hm : m ≠ 0) :
    (chunkChars m cs).flatten = cs := by
  induction cs using chunkChars.induct m with
  | case1 cs h =>
    rw [chunkChars, if_pos h]
    rcases h with h | h
    · simp [List.isEmpty_iff.mp h]
    · exact absurd h hm
  | case2 cs h ih =>
    rw [chunkChars, if_neg h]
    simp [ih]

theorem data_string_join (l : List String) :
    (String.join l).data = (l.map String.data).flatten := by
  have haux : ∀ (l : List String) (s : String),
      (l.foldl (fun r t => r ++ t) s).data = s.data ++ (l.map String.data).flatten := by
    intro l
    induction l with
    | nil => simp
    | cons a t ih => intro s; simp [List.foldl_cons, ih]
  simpa [String.join] using haux l ""

theorem join_split_text_to_blocks (t : String) (m : Nat) (hm : m ≠ 0) :
    String.join (split_text_to_blocks t m) = t := by
  unfold split_text_to_blocks
  by_cases h0 : t.length = 0
  · rw [if_pos h0]
    apply String.ext
    have : t.data = [] := List.length_eq_zero.mp h0
    simp [String.join, this]
  · rw [if_neg h0]
    by_cases h1 : t.length ≤ m
    · rw [if_pos h1]
      apply String.ext
      simp [String.join]
    · rw [if_neg h1]
      apply String.ext
      rw [data_string_join]
      simp only [List.map_map]
      have hmap : ∀ l : List (List Char),
          l.map (String.data ∘ List.asString) = l := by
        intro l
        induction l with
        | nil => rfl
        | cons a t ih => simp [ih, List.asString]
      rw [hmap, join_chunkChars m t.data hm]

/-! ### Helper lemmas about truncation and eviction -/

theorem length_pyTake (s : String) (n : Nat) :
    (pyTake s n).length = min n s.length := by
  show (s.data.take n).length = min n s.data.length
  exact List.length_take n s.data

theorem mem_get_cache_stats (now : Int) (c : CacheData) (k : String)
    (rec : CacheRecord) :
    (k, rec) ∈ (get_cache_stats now c).cache
      ↔ (k, rec) ∈ c ∧ now - rec.cached_time ≤ RETENTION_SECONDS := by
  simp [get_cache_stats, List.mem_filter, not_lt]

/-! ### Claim C3 — fingerprint priority order and determinism -/

/-- Claim C3: the fingerprint of a feed entry is the hash of, in priority
order, (1) the entry's native `id` when truthy (present and non-empty),
(2) else its `link` when truthy, (3) else the `title` and `published`
strings joined by an underscore; and the fingerprint depends on nothing
but those four field values, so entries with identical field values always
receive the same fingerprint. -/
theorem fingerprint_priority_and_determinism (md5 : String → String)
    (e e' : Entry) :
    (e.id = e'.id → e.link = e'.link → e.title = e'.title →
      e.published = e'.published →
      generate_entry_id md5 e = generate_entry_id md5 e')
    ∧ (Entry.getS e.id ≠ "" →
        generate_entry_id md5 e = md5 (Entry.getS e.id))
    ∧ (Entry.getS e.id = "" → Entry.getS e.link ≠ "" →
        generate_entry_id md5 e = md5 (Entry.getS e.link))
    ∧ (Entry.getS e.id = "" → Entry.getS e.link = "" →
        generate_entry_id md5 e
          = md5 (Entry.getS e.title ++ "_" ++ Entry.getS e.published)) := by
  refine ⟨?_, ?_, ?_, ?_⟩
  · intro h1 h2 h3 h4
    unfold generate_entry_id
    rw [h1, h2, h3, h4]
  · intro h
    unfold generate_entry_id
    rw [if_pos h]
  · intro h1 h2
    unfold generate_entry_id
    rw [if_neg (by simp [h1]), if_pos h2]
  · intro h1 h2
    unfold generate_entry_id
    rw [if_neg (by simp [h1]), if_neg (by simp [h2])]

/-- Witness for C3: a concrete entry with a native id hashes that id;
a concrete entry without id and link hashes `title ++ "_" ++ published`. -/
theorem fingerprint_priority_witness :
    generate_entry_id (fun s => s)
        ⟨some "post-1", some "http://x/1", some "T", none, some "P", none⟩
      = "post-1"
    ∧ generate_entry_id (fun s => s) ⟨none, none, some "T", none, some "P", none⟩
      = "T_P" :=
  ⟨(fingerprint_priority_and_determinism (fun s => s)
      ⟨some "post-1", some "http://x/1", some "T", none, some "P", none⟩
      ⟨some "post-1", some "http://x/1", some "T", none, some "P", none⟩).2.1
      (by decide),
   (fingerprint_priority_and_determinism (fun s => s)
      ⟨none, none, some "T", none, some "P", none⟩
      ⟨none, none, some "T", none, some "P", none⟩).2.2.2 (by decide) (by decide)⟩

/-! ### Claim C4 — success classification of one candidate fetch -/

/-- Counterexample to C4: a feed carrying an explicit 200 status with zero
entries is successful per the claim, yet `try_rss_source` classifies it as
a failure (both its `if` branches require a non-empty entry list). -/
theorem try_rss_source_counterexample :
    specCandidateSuccessful ⟨some 200, some []⟩ = true
    ∧ (try_rss_source (some ⟨some 200, some []⟩)).2 = false := by
  constructor
  · decide
  · decide

/-- Claim C4 as amended: a parsed candidate is classified successful
exactly when its entry list is non-empty — the status field never decides
the outcome (a 200-status feed with zero entries fails; a feed with
entries but no status succeeds) — and on success the feed itself is
returned, while a raising parse yields `(None, False)`. -/
theorem try_rss_source_success_iff (f : Feed) :
    ((try_rss_source (some f)).2 = true ↔ 0 < f.entryCount)
    ∧ (0 < f.entryCount → try_rss_source (some f) = (some f, true))
    ∧ try_rss_source none = (none, false) := by
  have hmain : (try_rss_source (some f)).2 = true ↔ 0 < f.entryCount := by
    unfold try_rss_source
    by_cases h : 0 < f.entryCount
    · by_cases hs : f.status = some 200 <;> simp [h, hs]
    · simp [h]
  refine ⟨hmain, ?_, rfl⟩
  intro h
  unfold try_rss_source
  by_cases hs : f.status = some 200 <;> simp [h, hs]

/-- Witness for C4 (amended): a feed with one entry and no status field is
classified successful and returned. -/
theorem try_rss_source_success_witness :
    try_rss_source (some ⟨none, some [⟨none, none, none, none, none, none⟩]⟩)
      = (some ⟨none, some [⟨none, none, none, none, none, none⟩]⟩, true) :=
  (try_rss_source_success_iff
      ⟨none, some [⟨none, none, none, none, none, none⟩]⟩).2.1 (by decide)

/-! ### Claim C6 — chunk round-trip -/

/-- Claim C6: concatenating, in order, the chunks produced by
`_split_text_to_blocks` at the default maximum length 1900 reconstructs
the input text exactly; no trailing content is dropped. -/
theorem split_text_roundtrip (t : String) :
    String.join (split_text_to_blocks t 1900) = t :=
  join_split_text_to_blocks t 1900 (by decide)

/-! ### Claim C7 — a short text yields exactly one chunk -/

/-- Counterexample to C7: the empty text has length at most 1900, yet
`_split_text_to_blocks` returns zero chunks for it (the `if not text`
branch), not one. -/
theorem split_text_empty_counterexample :
    ("" : String).length ≤ 1900 ∧ (split_text_to_blocks "" 1900).length ≠ 1 := by
  constructor
  · decide
  · decide

/-- Claim C7 as amended: every non-empty text of length at most 1900
yields exactly the one-element chunk list `[t]`; the empty text yields the
empty chunk list. -/
theorem split_text_single_chunk (t : String) (h0 : t ≠ "")
    (h1 : t.length ≤ 1900) :
    split_text_to_blocks t 1900 = [t] := by
  unfold split_text_to_blocks
  rw [if_neg, if_pos h1]
  intro hlen
  exact h0 (String.ext (List.length_eq_zero.mp hlen))

/-- Witness for C7 (amended): `"hello"` is returned as a single chunk. -/
theorem split_text_single_chunk_witness :
    split_text_to_blocks "hello" 1900 = ["hello"] :=
  split_text_single_chunk "hello" (by decide) (by decide)

/-! ### Claim C8 — cache TTL eviction -/

/-- Claim C8: the eviction pass keeps exactly the records whose age
`now - cached_time` is at most 30 days, removing the rest; the returned
pair is `(keptCount, evictedCount)` with `kept + evicted` equal to the
size before the pass; the cache file is written exactly when at least one
record was evicted; and consequently a record inserted at `t0` is still
present at `t0 + 29` days and absent after a pass at `t0 + 31` days. -/
theorem cache_ttl_eviction (now t0 : Int) (c : CacheData) (k : String)
    (rec : CacheRecord) :
    ((k, rec) ∈ (get_cache_stats now c).cache
      ↔ (k, rec) ∈ c ∧ now - rec.cached_time ≤ RETENTION_SECONDS)
    ∧ (get_cache_stats now c).kept + (get_cache_stats now c).evicted = c.length
    ∧ ((get_cache_stats now c).saved = true
        ↔ 0 < (get_cache_stats now c).evicted)
    ∧ (rec.cached_time = t0 → (k, rec) ∈ c →
        (k, rec) ∈ (get_cache_stats (t0 + 29 * 86400) c).cache
        ∧ (k, rec) ∉ (get_cache_stats (t0 + 31 * 86400) c).cache) := by
  refine ⟨mem_get_cache_stats now c k rec, ?_, ?_, ?_⟩
  · simp only [get_cache_stats]
    exact Nat.sub_add_cancel (List.length_filter_le _ c)
  · simp only [get_cache_stats]
    simp [bne_iff_ne, Nat.pos_iff_ne_zero]
  · intro ht hmem
    constructor
    · refine (mem_get_cache_stats _ c k rec).mpr ⟨hmem, ?_⟩
      rw [ht]
      unfold RETENTION_SECONDS
      omega
    · intro habs
      have hage := ((mem_get_cache_stats _ c k rec).mp habs).2
      rw [ht] at hage
      unfold RETENTION_SECONDS at hage
      omega

/-- Witness for C8: a record inserted at time 0 survives a pass 29 days
later and is evicted by a pass 31 days later. -/
theorem cache_ttl_witness :
    ("k", ({ title := "t", link := "l", author := "a", published := "p",
             cached_time := 0 } : CacheRecord))
        ∈ (get_cache_stats (0 + 29 * 86400)
            [("k", { title := "t", link := "l", author := "a",
                     published := "p", cached_time := 0 })]).cache
    ∧ ("k", ({ title := "t", link := "l", author := "a", published := "p",
               cached_time := 0 } : CacheRecord))
        ∉ (get_cache_stats (0 + 31 * 86400)
            [("k", { title := "t", link := "l", author := "a",
                     published := "p", cached_time := 0 })]).cache :=
  (cache_ttl_eviction 0 0
      [("k", { title := "t", link := "l", author := "a", published := "p",
               cached_time := 0 })]
      "k"
      { title := "t", link := "l", author := "a", published := "p",
        cached_time := 0 }).2.2.2 rfl (by decide)

/-! ### Claim C9 — truncation maxima and the ellipsis marker -/

/-- Counterexample to C9: a 101-character title is stored as its first 100
characters with nothing appended (`entry.get('title', '无标题')[:100]`),
so the stored title field never grows past 100 characters, contradicting
the claim that an ellipsis marker is appended after truncation. -/
theorem notion_title_counterexample : ¬ specTitleTruncatedWithMarker := by
  intro h
  have h1 := h
    ⟨none, none, some (List.replicate 101 'a').asString, none, none, none⟩
    (by decide)
  have h2 : (notion_title
      ⟨none, none, some (List.replicate 101 'a').asString,
        none, none, none⟩).length = 100 := by decide
  omega

/-- Claim C9 as amended: the generic `safe_str` path truncates to the
configured maximum (20,000 by default) and appends the visible `"......"`
marker; the Notion title and author fields (maximum 100) and the summary
rich-text field (2,000 in the monolithic script, 1,900 in the modular
manager) are truncated by plain slicing with no marker, so their stored
values never exceed their maxima. -/
theorem truncation_policy (s : String) (n : Nat) (e : Entry) (u : String) :
    (s.length > n → safe_str (some s) n true = pyTake s n ++ "......")
    ∧ (s.length ≤ n → safe_str (some s) n true = s)
    ∧ (100 < (e.title.getD "无标题").length → (notion_title e).length = 100)
    ∧ (notion_title e).length ≤ 100
    ∧ (notion_author e u).length ≤ 100
    ∧ (2000 < (clean_text (e.summary.getD "无摘要")).length →
        (notion_summary_mono e).length = 2000)
    ∧ (notion_summary_mono e).length ≤ 2000
    ∧ (notion_summary_mod e).length ≤ 1900 := by
  refine ⟨?_, ?_, ?_, ?_, ?_, ?_, ?_, ?_⟩
  · intro h
    show (if (true && decide (s.length > n)) = true
        then pyTake s n ++ "......" else s) = _
    rw [if_pos (by simpa using h)]
  · intro h
    show (if (true && decide (s.length > n)) = true
        then pyTake s n ++ "......" else s) = s
    rw [if_neg (by simp; omega)]
  · intro h
    unfold notion_title
    rw [length_pyTake]
    omega
  · unfold notion_title
    rw [length_pyTake]
    omega
  · unfold notion_author
    rw [length_pyTake]
    omega
  · intro h
    unfold notion_summary_mono
    rw [length_pyTake]
    omega
  · unfold notion_summary_mono
    rw [length_pyTake]
    omega
  · unfold notion_summary_mod
    rw [length_pyTake]
    omega

/-- Witness for C9 (amended): `safe_str` at maximum 3 turns `"abcde"` into
`"abc......"`, and a 101-character title is stored with length exactly
100. -/
theorem truncation_policy_witness :
    safe_str (some "abcde") 3 true = "abc......"
    ∧ (notion_title
        ⟨none, none, some (List.replicate 101 'a').asString,
          none, none, none⟩).length = 100 := by
  constructor
  · rw [(truncation_policy "abcde" 3
        ⟨none, none, none, none, none, none⟩ "").1 (by decide)]
    decide
  · exact (truncation_policy "" 0
      ⟨none, none, some (List.replicate 101 'a').asString, none, none, none⟩
      "").2.2.1 (by decide)

/-! ### Claim C1 — dedup idempotence of the filter-and-publish stage -/

/-- Counterexample to C1 for `display_content` (rsshubai.py): with eleven
uncached entries and an empty cache, the first run publishes only the
first ten (`new_entries[:10]`), so the second run over the identical feed
still finds the eleventh entry uncached: it publishes one more entry and
grows the cache by one — not zero.  The hash is instantiated with the
identity function, which is injective on the distinct ids `"0"`…`"10"`
exactly as the real MD5 hexdigest is. -/
theorem dedup_counterexample :
    (display_content (fun s => s) (fun _ => true) 0 (numberedEntries 11)
        (display_content (fun s => s) (fun _ => true) 0 (numberedEntries 11)
          []).cache).notion_success_count = 1
    ∧ (display_content (fun s => s) (fun _ => true) 0 (numberedEntries 11)
        (display_content (fun s => s) (fun _ => true) 0 (numberedEntries 11)
          []).cache).cache.length
      = (display_content (fun s => s) (fun _ => true) 0 (numberedEntries 11)
          []).cache.length + 1 := by
  constructor
  · decide
  · decide

/-- Claim C1 as amended: feeding the identical feed through
`process_user_content` twice yields a second run that attempts nothing,
publishes zero entries and leaves the cache exactly as the first run left
it; the same holds for `display_content` provided at most ten of the
feed's entries were uncached before the first run (its `[:10]` cap
otherwise leaves entries for later runs).  The publish outcomes of either
run are arbitrary (`push1`, `push2`). -/
theorem dedup_idempotent (md5 : String → String) (push1 push2 : Entry → Bool)
    (now1 now2 : Int) (entries : List Entry) (cache : CacheData) :
    ((process_user_content md5 push2 now2 entries
        (process_user_content md5 push1 now1 entries cache).cache).attempted = []
      ∧ (process_user_content md5 push2 now2 entries
          (process_user_content md5 push1 now1 entries cache).cache).notion_success_count = 0
      ∧ (process_user_content md5 push2 now2 entries
          (process_user_content md5 push1 now1 entries cache).cache).cache
        = (process_user_content md5 push1 now1 entries cache).cache)
    ∧ ((entries.filter (fun e => ! is_entry_cached md5 cache e)).length ≤ 10 →
        (display_content md5 push2 now2 entries
            (display_content md5 push1 now1 entries cache).cache).attempted = []
        ∧ (display_content md5 push2 now2 entries
            (display_content md5 push1 now1 entries cache).cache).notion_success_count = 0
        ∧ (display_content md5 push2 now2 entries
            (display_content md5 push1 now1 entries cache).cache).cache
          = (display_content md5 push1 now1 entries cache).cache) := by
  constructor
  · have h2 := process_run_no_new md5 push2 now2 entries
      (process_user_content md5 push1 now1 entries cache).cache
      (all_cached_after_process md5 push1 now1 entries cache)
    rw [h2]
    exact ⟨rfl, rfl, rfl⟩
  · intro hle
    have h2 := display_run_no_new md5 push2 now2 entries
      (display_content md5 push1 now1 entries cache).cache
      (all_cached_after_display md5 push1 now1 entries cache hle)
    rw [h2]
    exact ⟨rfl, rfl, rfl⟩

/-- Witness for C1 (amended): three fresh entries, second run of either
stage attempts nothing and keeps the cache; the ten-entry bound on
`display_content` is met (3 ≤ 10). -/
theorem dedup_idempotent_witness :
    (display_content (fun s => s) (fun _ => true) 7 (numberedEntries 3)
        (display_content (fun s => s) (fun _ => false) 5 (numberedEntries 3)
          []).cache).attempted = []
    ∧ (display_content (fun s => s) (fun _ => true) 7 (numberedEntries 3)
        (display_content (fun s => s) (fun _ => false) 5 (numberedEntries 3)
          []).cache).cache
      = (display_content (fun s => s) (fun _ => false) 5 (numberedEntries 3)
          []).cache :=
  have h := (dedup_idempotent (fun s => s) (fun _ => false) (fun _ => true)
      5 7 (numberedEntries 3) []).2 (by decide)
  ⟨h.1, h.2.2⟩

/-! ### Claim C2 — fingerprints committed regardless of publish outcome -/

/-- Claim C2: in a run over a feed's uncached entries, every new entry is
attempted (the loop never aborts on a publish failure — the push oracle is
arbitrary, including one that always fails), the fingerprint of every
attempted entry is in the cache afterwards, and the reported success count
is exactly the number of entries the store accepted.  The last conjunct
states the fingerprint commitment for the capped `display_content` loop of
the monolithic script as well. -/
theorem publish_failure_still_cached (md5 : String → String)
    (push : Entry → Bool) (now : Int) (entries : List Entry)
    (cache : CacheData) :
    ((process_user_content md5 push now entries cache).attempted
      = entries.filter (fun e => ! is_entry_cached md5 cache e))
    ∧ (∀ e ∈ entries.filter (fun e => ! is_entry_cached md5 cache e),
        containsKey (process_user_content md5 push now entries cache).cache
          (generate_entry_id md5 e) = true)
    ∧ ((process_user_content md5 push now entries cache).notion_success_count
        = (entries.filter (fun e => ! is_entry_cached md5 cache e)).countP
            (fun e => push e))
    ∧ (∀ e ∈ (display_content md5 push now entries cache).attempted,
        containsKey (display_content md5 push now entries cache).cache
          (generate_entry_id md5 e) = true) := by
  refine ⟨?_, ?_, ?_, ?_⟩
  · unfold process_user_content
    by_cases h0 : entries.length = 0
    · rw [if_pos h0, List.length_eq_zero.mp h0]
      rfl
    · rw [if_neg h0]
      by_cases h1 : (entries.filter (fun e => ! is_entry_cached md5 cache e)).isEmpty
      · simp only [h1, if_true]
        exact (List.isEmpty_iff.mp h1).symm
      · simp only [h1, if_false]
        rfl
  · intro e he
    have := all_cached_after_process md5 push now entries cache e
      (List.mem_filter.mp he).1
    simpa [is_entry_cached] using this
  · unfold process_user_content
    by_cases h0 : entries.length = 0
    · rw [if_pos h0, List.length_eq_zero.mp h0]
      rfl
    · rw [if_neg h0]
      by_cases h1 : (entries.filter (fun e => ! is_entry_cached md5 cache e)).isEmpty
      · simp only [h1, if_true]
        rw [List.isEmpty_iff.mp h1]
        rfl
      · simp only [h1, if_false]
        show (pushLoop md5 push now cache 0 _).2 = _
        rw [snd_pushLoop]
        simp
  · intro e he
    unfold display_content at he ⊢
    by_cases h1 : (entries.filter (fun e => ! is_entry_cached md5 cache e)).isEmpty
    · simp only [h1, if_true] at he
      exact absurd he (List.not_mem_nil e)
    · simp only [h1, if_false] at he ⊢
      show containsKey (pushLoop md5 push now cache 0 _).1 _ = true
      rw [containsKey_pushLoop]
      have hany : ((entries.filter
          (fun e => ! is_entry_cached md5 cache e)).take 10).any
          (fun x => generate_entry_id md5 x == generate_entry_id md5 e) = true :=
        List.any_eq_true.mpr ⟨e, he, beq_self_eq_true _⟩
      rw [hany]
      simp

/-- Witness for C2 — the §8 scenario: three fresh entries, the store
rejects entry `"1"` (the second); the run still reports 2 successes and
the rejected entry's fingerprint is committed to the cache. -/
theorem publish_failure_witness :
    ((process_user_content (fun s => s)
        (fun e => decide (e.id ≠ some "1")) 0 (numberedEntries 3)
        []).notion_success_count = 2)
    ∧ containsKey (process_user_content (fun s => s)
        (fun e => decide (e.id ≠ some "1")) 0 (numberedEntries 3) []).cache
        (generate_entry_id (fun s => s)
          ⟨some "1", none, none, none, none, none⟩) = true := by
  constructor
  · rw [(publish_failure_still_cached (fun s => s)
      (fun e => decide (e.id ≠ some "1")) 0 (numberedEntries 3) []).2.2.1]
    decide
  · exact (publish_failure_still_cached (fun s => s)
      (fun e => decide (e.id ≠ some "1")) 0 (numberedEntries 3) []).2.1
      ⟨some "1", none, none, none, none, none⟩ (by decide)

/-! ### Claim C10 — the monolithic script caps each run at ten entries -/

/-- Claim C10: `display_content` attempts exactly the first ten uncached
entries in feed order (so at most ten pages are pushed), each attempted
entry's fingerprint is committed, and an uncached entry beyond the tenth
whose fingerprint is not shared with one of the first ten is left out of
the cache entirely in that run. -/
theorem display_caps_at_ten (md5 : String → String) (push : Entry → Bool)
    (now : Int) (entries : List Entry) (cache : CacheData) :
    ((display_content md5 push now entries cache).attempted
      = (entries.filter (fun e => ! is_entry_cached md5 cache e)).take 10)
    ∧ (display_content md5 push now entries cache).attempted.length ≤ 10
    ∧ (display_content md5 push now entries cache).notion_success_count ≤ 10
    ∧ (∀ e ∈ (entries.filter (fun e => ! is_entry_cached md5 cache e)).drop 10,
        generate_entry_id md5 e
            ∉ ((entries.filter (fun e => ! is_entry_cached md5 cache e)).take 10).map
              (generate_entry_id md5) →
        containsKey (display_content md5 push now entries cache).cache
          (generate_entry_id md5 e) = false) := by
  have hattempted : (display_content md5 push now entries cache).attempted
      = (entries.filter (fun e => ! is_entry_cached md5 cache e)).take 10 := by
    unfold display_content
    by_cases h1 : (entries.filter (fun e => ! is_entry_cached md5 cache e)).isEmpty
    · simp only [h1, if_true]
      rw [List.isEmpty_iff.mp h1]
      rfl
    · simp only [h1, if_false]
      rfl
  refine ⟨hattempted, ?_, ?_, ?_⟩
  · rw [hattempted, List.length_take]
    omega
  · unfold display_content
    by_cases h1 : (entries.filter (fun e => ! is_entry_cached md5 cache e)).isEmpty
    · simp [h1]
    · simp only [h1, if_false]
      show (pushLoop md5 push now cache 0 _).2 ≤ 10
      rw [snd_pushLoop]
      have hcount : ((entries.filter (fun e => ! is_entry_cached md5 cache e)).take 10).countP
            (fun e => push e)
          ≤ ((entries.filter (fun e => ! is_entry_cached md5 cache e)).take 10).length :=
        List.countP_le_length _
      have hlen : ((entries.filter (fun e => ! is_entry_cached md5 cache e)).take 10).length ≤ 10 := by
        rw [List.length_take]
        omega
      omega
  · intro e hedrop hnotin
    have hefil : e ∈ entries.filter (fun e => ! is_entry_cached md5 cache e) :=
      List.mem_of_mem_drop hedrop
    have hnew : is_entry_cached md5 cache e = false := by
      have := (List.mem_filter.mp hefil).2
      simpa using this
    unfold display_content
    by_cases h1 : (entries.filter (fun e => ! is_entry_cached md5 cache e)).isEmpty
    · rw [List.isEmpty_iff.mp h1] at hefil
      exact absurd hefil (List.not_mem_nil e)
    · simp only [h1, if_false]
      show containsKey (pushLoop md5 push now cache 0 _).1 _ = false
      rw [containsKey_pushLoop]
      have hc : containsKey cache (generate_entry_id md5 e) = false := hnew
      have hany : ((entries.filter
          (fun e => ! is_entry_cached md5 cache e)).take 10).any
          (fun x => generate_entry_id md5 x == generate_entry_id md5 e) = false := by
        rw [List.any_eq_false]
        intro x hx hbeq
        exact hnotin (List.mem_map.mpr ⟨x, hx, eq_of_beq hbeq⟩)
      rw [hc, hany]
      rfl

/-- Witness for C10: with twelve fresh entries, exactly ten are attempted
and the twelfth entry (id `"11"`) is neither pushed nor cached in that
run. -/
theorem display_caps_witness :
    (display_content (fun s => s) (fun _ => true) 0 (numberedEntries 12)
        []).attempted.length = 10
    ∧ containsKey (display_content (fun s => s) (fun _ => true) 0
        (numberedEntries 12) []).cache
        (generate_entry_id (fun s => s)
          ⟨some "11", none, none, none, none, none⟩) = false := by
  constructor
  · rw [(display_caps_at_ten (fun s => s) (fun _ => true) 0
      (numberedEntries 12) []).1]
    decide
  · exact (display_caps_at_ten (fun s => s) (fun _ => true) 0
      (numberedEntries 12) []).2.2.2
      ⟨some "11", none, none, none, none, none⟩ (by decide) (by decide)

/-! ### Claim C5 — ordered fallback with first-success short-circuit -/

/-- Counterexample to C5: the monolithic script's fetcher (rsshubai.py
line 870, `return feed, user.platform`) does not return the successful
candidate's url — with candidates `["A", "B"]` where only `"B"` parses,
the second component of the result is the user's platform tag
`"twitter"`, not `"B"`. -/
theorem fetch_mono_counterexample :
    (fetch_user_content_mono
        (fun url => if url = "B"
          then some ⟨some 200, some [⟨none, none, none, none, none, none⟩]⟩
          else none)
        "twitter" ["A", "B"]).1
      = (some ⟨some 200, some [⟨none, none, none, none, none, none⟩]⟩,
          some "twitter")
    ∧ ("twitter" : String) ≠ "B" := by
  constructor
  · decide
  · decide

/-- Claim C5 as amended: both fetchers try the candidates strictly in
order and stop at the first success, never attempting later candidates
(the attempted list is exactly the failing prefix plus the successful
candidate); the modular fetcher returns the feed together with its url,
while the monolithic script's fetcher returns the feed together with the
user's platform tag instead of the url; on exhaustion — all candidates
failing, or an empty candidate list — both return `(None, None)` after
attempting every candidate. -/
theorem fetch_first_success (parse : String → Option Feed) (platform : String)
    (pre post urls : List String) (u : String)
    (hpre : ∀ v ∈ pre, sourceOk parse v = false) :
    (sourceOk parse u = true →
      fetch_user_content parse (pre ++ u :: post)
        = (((try_rss_source (parse u)).1, some u), pre ++ [u])
      ∧ fetch_user_content_mono parse platform (pre ++ u :: post)
        = (((try_rss_source (parse u)).1, some platform), pre ++ [u]))
    ∧ ((∀ v ∈ urls, sourceOk parse v = false) →
        fetch_user_content parse urls = ((none, none), urls)
        ∧ fetch_user_content_mono parse platform urls
          = ((none, none), urls)) := by
  constructor
  · intro hu
    constructor
    · rw [fetch_skips_failures parse pre (u :: post) hpre,
        fetch_cons_ok parse u post hu]
    · rw [fetch_mono_skips_failures parse platform pre (u :: post) hpre,
        fetch_mono_cons_ok parse platform u post hu]
  · intro hall
    exact ⟨fetch_all_fail parse urls hall,
      fetch_mono_all_fail parse platform urls hall⟩

/-- Witness for C5 (amended) — the §8 fallback scenario: candidates
`["A", "B", "C"]` where `"A"` fails to parse and `"B"` succeeds; the
fetcher returns `"B"`'s feed with `"B"` itself, having attempted only
`["A", "B"]` — `"C"` is never attempted. -/
theorem fetch_first_success_witness :
    fetch_user_content
        (fun url => if url = "B"
          then some ⟨some 200, some [⟨none, none, none, none, none, none⟩]⟩
          else none)
        ["A", "B", "C"]
      = ((some ⟨some 200, some [⟨none, none, none, none, none, none⟩]⟩,
          some "B"), ["A", "B"]) := by
  have h := ((fetch_first_success
      (fun url => if url = "B"
        then some ⟨some 200, some [⟨none, none, none, none, none, none⟩]⟩
        else none)
      "twitter" ["A"] ["C"] [] "B" (by decide)).1 (by decide)).1
  exact h

end Airss
